import Mathlib

/-!
Verification of the neptune-auto-charger script (`src/main.py`).

The development is a shallow embedding of the script:

* pure helpers (`find_power_off_record`'s matching loop, `is_port_free`) become
  Lean functions over the same data;
* timestamps are modelled as exact integers.  `enddt` is an epoch timestamp in
  milliseconds; `datetime.fromtimestamp(enddt / 1000, tz=TZ_BEIJING)` denotes the
  same instant (the float division is exact at the microsecond precision kept by
  `datetime` for the representable range), and comparison of aware datetimes is
  comparison of instants, so the window check is integer comparison on
  milliseconds;
* the remote HTTP API is an environment of response values; a call that raises a
  Python exception is modelled by `Except.error` carrying the exception text;
* the orchestrator `try_charge` is a function of that environment which also
  returns the list of API calls it performed, in order;
* the civil-calendar arithmetic done through `datetime.date` (yesterday, the
  previous month, day-of-month tests) is modelled by an explicit proleptic
  Gregorian calendar on `CivilDate`.
-/

namespace AutoCharger

/-- One historical charging session, as delivered by the `getChargeLog` endpoint.
`endtype` and `enddt` may be absent from the JSON object (`record.get` then
yields `None`), hence `Option`.  `devaddress` and `devport` are the identifier
strings the script extracts from the record. -/
structure ChargeRecord where
  devaddress : String
  devport : String
  endtype : Option Int
  enddt : Option Int
deriving DecidableEq

/-- The scanning loop of `find_power_off_record` (src/main.py lines 175-193),
with the inclusive window bounds `ws`, `we` in epoch milliseconds and the
configured outage end-type `code`.  A record is skipped when its end type
differs from `code` or its end time is absent; the first record whose end time
lies inside the window (both bounds inclusive) is returned. -/
def findRec (ws we code : Int) : List ChargeRecord → Option ChargeRecord
  | [] => none
  | r :: rest =>
    if r.endtype ≠ some code then findRec ws we code rest
    else
      match r.enddt with
      | none => findRec ws we code rest
      | some t => if ws ≤ t ∧ t ≤ we then some r else findRec ws we code rest

/-- A record qualifies for the window: matching end type, present end time,
end time inside the inclusive window. -/
def qualifies (ws we code : Int) (r : ChargeRecord) : Bool :=
  r.endtype == some code &&
    match r.enddt with
    | none => false
    | some t => decide (ws ≤ t) && decide (t ≤ we)

theorem qualifies_iff (ws we code : Int) (r : ChargeRecord) :
    qualifies ws we code r = true ↔
      r.endtype = some code ∧ ∃ t, r.enddt = some t ∧ ws ≤ t ∧ t ≤ we := by
  unfold qualifies
  cases he : r.enddt with
  | none => simp [he]
  | some t => simp [he, and_assoc]

theorem findRec_cons_of_qual {ws we code : Int} {r : ChargeRecord}
    (rest : List ChargeRecord) (h : qualifies ws we code r = true) :
    findRec ws we code (r :: rest) = some r := by
  obtain ⟨h1, t, he, hl, hu⟩ := (qualifies_iff ws we code r).mp h
  simp [findRec, h1, he, hl, hu]

theorem findRec_cons_of_not_qual {ws we code : Int} {r : ChargeRecord}
    (rest : List ChargeRecord) (h : qualifies ws we code r = false) :
    findRec ws we code (r :: rest) = findRec ws we code rest := by
  rw [findRec]
  by_cases h1 : r.endtype = some code
  · cases he : r.enddt with
    | none => simp [h1, he]
    | some t =>
      have h2 : ¬ (ws ≤ t ∧ t ≤ we) := by
        intro hc
        have : qualifies ws we code r = true :=
          (qualifies_iff ws we code r).mpr ⟨h1, t, he, hc.1, hc.2⟩
        rw [this] at h
        exact Bool.noConfusion h
      simp [h1, he, h2]
  · simp [h1]

theorem findRec_isSome (ws we code : Int) (l : List ChargeRecord) :
    (findRec ws we code l).isSome = true ↔
      ∃ r ∈ l, qualifies ws we code r = true := by
  induction l with
  | nil => simp [findRec]
  | cons r rest ih =>
    by_cases hq : qualifies ws we code r = true
    · rw [findRec_cons_of_qual rest hq]
      simp [hq]
    · rw [findRec_cons_of_not_qual rest (Bool.eq_false_iff.mpr hq)]
      simp only [ih]
      constructor
      · rintro ⟨x, hx, hqx⟩
        exact ⟨x, List.mem_cons_of_mem r hx, hqx⟩
      · rintro ⟨x, hx, hqx⟩
        rcases List.mem_cons.mp hx with h | h
        · exact absurd (h ▸ hqx) hq
        · exact ⟨x, h, hqx⟩

theorem findRec_first (ws we code : Int) (l : List ChargeRecord) :
    ∀ r, findRec ws we code l = some r →
      qualifies ws we code r = true ∧
        ∃ pre post, l = pre ++ r :: post ∧
          ∀ x ∈ pre, qualifies ws we code x = false := by
  induction l with
  | nil => intro r h; simp [findRec] at h
  | cons a rest ih =>
    intro r h
    by_cases hq : qualifies ws we code a = true
    · rw [findRec_cons_of_qual rest hq] at h
      obtain rfl := Option.some.inj h
      exact ⟨hq, [], rest, rfl, by simp⟩
    · have hq' : qualifies ws we code a = false := Bool.eq_false_iff.mpr hq
      rw [findRec_cons_of_not_qual rest hq'] at h
      obtain ⟨h1, pre, post, hsplit, hall⟩ := ih r h
      refine ⟨h1, a :: pre, post, by simp [hsplit], ?_⟩
      intro x hx
      rcases List.mem_cons.mp hx with h' | h'
      · exact h' ▸ hq'
      · exact hall x h'

theorem findRec_none (ws we code : Int) (l : List ChargeRecord)
    (h : ∀ r ∈ l, qualifies ws we code r = false) :
    findRec ws we code l = none := by
  cases hf : findRec ws we code l with
  | none => rfl
  | some r =>
    have : (findRec ws we code l).isSome = true := by simp [hf]
    obtain ⟨x, hx, hqx⟩ := (findRec_isSome ws we code l).mp this
    rw [h x hx] at hqx
    exact absurd hqx (by simp)

/-- C1: on every inclusive window `[ws, we]` with `ws < we`, every outage
end-type code and every record list, the matching loop of
`find_power_off_record` returns a record iff some record has the matching end
type and a present end time inside the window (bounds included); the record
returned is the first qualifying one in input order, and when no record
qualifies (in particular on the empty list) it returns `none`. -/
theorem c1_matcher (ws we code : Int) (logs : List ChargeRecord)
    (hlt : ws < we) :
    ((findRec ws we code logs).isSome = true ↔
        ∃ r ∈ logs, qualifies ws we code r = true)
    ∧ (∀ r, findRec ws we code logs = some r →
        qualifies ws we code r = true ∧
          ∃ pre post, logs = pre ++ r :: post ∧
            ∀ x ∈ pre, qualifies ws we code x = false)
    ∧ ((∀ r ∈ logs, qualifies ws we code r = false) →
        findRec ws we code logs = none) :=
  ⟨findRec_isSome ws we code logs, findRec_first ws we code logs,
    findRec_none ws we code logs⟩

/-- A sample record and list used to instantiate the matcher theorem. -/
def demoRec : ChargeRecord := ⟨"dev1", "2", some 39, some 5⟩

def demoLogs : List ChargeRecord := [demoRec]

theorem c1_matcher_witness :
    ((findRec 0 10 39 demoLogs).isSome = true ↔
        ∃ r ∈ demoLogs, qualifies 0 10 39 r = true)
    ∧ (∀ r, findRec 0 10 39 demoLogs = some r →
        qualifies 0 10 39 r = true ∧
          ∃ pre post, demoLogs = pre ++ r :: post ∧
            ∀ x ∈ pre, qualifies 0 10 39 x = false)
    ∧ ((∀ r ∈ demoLogs, qualifies 0 10 39 r = false) →
        findRec 0 10 39 demoLogs = none) :=
  c1_matcher 0 10 39 demoLogs (by decide)

/-! ## Civil calendar

`find_power_off_record` anchors its window with `datetime.date` arithmetic
(`today`, `today - timedelta(days=1)`) and `try_charge` uses `now.day` and
`now.replace(day=1) - timedelta(days=1)`.  We model the proleptic Gregorian
calendar that `datetime` implements, with years as naturals (the script only
ever sees contemporary dates, and nothing below depends on the year origin). -/

/-- A civil date in the fixed Beijing timezone: the value of
`datetime.now(TZ_BEIJING).date()`. -/
structure CivilDate where
  year : Nat
  month : Nat
  day : Nat
deriving DecidableEq

def isLeap (y : Nat) : Bool :=
  (y % 4 == 0 && y % 100 != 0) || y % 400 == 0

/-- 1 on leap years, 0 otherwise. -/
def leapAdj (y : Nat) : Nat := if isLeap y then 1 else 0

def daysInMonth (y : Nat) : Nat → Nat
  | 1 => 31
  | 2 => 28 + leapAdj y
  | 3 => 31
  | 4 => 30
  | 5 => 31
  | 6 => 30
  | 7 => 31
  | 8 => 31
  | 9 => 30
  | 10 => 31
  | 11 => 30
  | 12 => 31
  | _ => 0

/-- Cumulative days before the first of month `m` in year `y`. -/
def daysBeforeMonth (y : Nat) : Nat → Nat
  | 1 => 0
  | 2 => 31
  | 3 => 59 + leapAdj y
  | 4 => 90 + leapAdj y
  | 5 => 120 + leapAdj y
  | 6 => 151 + leapAdj y
  | 7 => 181 + leapAdj y
  | 8 => 212 + leapAdj y
  | 9 => 243 + leapAdj y
  | 10 => 273 + leapAdj y
  | 11 => 304 + leapAdj y
  | 12 => 334 + leapAdj y
  | _ => 0

def daysInYear (y : Nat) : Nat := 365 + leapAdj y

def daysBeforeYear : Nat → Nat
  | 0 => 0
  | y + 1 => daysBeforeYear y + daysInYear y

/-- Day index of a civil date on the model timeline (day 0 = January 1 of year 0). -/
def dayNumber (d : CivilDate) : Nat :=
  daysBeforeYear d.year + daysBeforeMonth d.year d.month + (d.day - 1)

/-- A date `datetime.date` can hold: month in 1..12, day in range for the month. -/
def ValidDate (d : CivilDate) : Prop :=
  1 ≤ d.month ∧ d.month ≤ 12 ∧ 1 ≤ d.day ∧ d.day ≤ daysInMonth d.year d.month

instance (d : CivilDate) : Decidable (ValidDate d) := by
  unfold ValidDate; infer_instance

/-- `d - timedelta(days=1)` on dates: Python's exact calendar decrement. -/
def prevDay (d : CivilDate) : CivilDate :=
  if 2 ≤ d.day then ⟨d.year, d.month, d.day - 1⟩
  else if 2 ≤ d.month then ⟨d.year, d.month - 1, daysInMonth d.year (d.month - 1)⟩
  else ⟨d.year - 1, 12, 31⟩

theorem daysBeforeMonth_step (y : Nat) (m : Nat) (h1 : 1 ≤ m) (h11 : m ≤ 11) :
    daysBeforeMonth y (m + 1) = daysBeforeMonth y m + daysInMonth y m := by
  interval_cases m <;>
    simp [daysBeforeMonth, daysInMonth, leapAdj] <;> omega

theorem daysInMonth_pos (y : Nat) (m : Nat) (h1 : 1 ≤ m) (h12 : m ≤ 12) :
    1 ≤ daysInMonth y m := by
  interval_cases m <;> simp [daysInMonth, leapAdj] <;> omega

theorem daysBeforeMonth_last (y : Nat) :
    daysBeforeMonth y 12 + daysInMonth y 12 = daysInYear y := by
  simp [daysBeforeMonth, daysInMonth, daysInYear]
  omega

/-- The calendar decrement really moves one day back on the timeline. -/
theorem dayNumber_prevDay (d : CivilDate) (hv : ValidDate d) (hy : 1 ≤ d.year) :
    dayNumber (prevDay d) + 1 = dayNumber d := by
  obtain ⟨y, m, day⟩ := d
  obtain ⟨hm1, hm12, hd1, hd2⟩ := hv
  dsimp only at hm1 hm12 hd1 hd2 hy
  by_cases h2 : 2 ≤ day
  · unfold prevDay
    rw [if_pos h2]
    unfold dayNumber
    dsimp only
    omega
  · have hd : day = 1 := by omega
    subst hd
    by_cases hm : 2 ≤ m
    · unfold prevDay
      rw [if_neg h2, if_pos hm]
      unfold dayNumber
      dsimp only
      obtain ⟨m0, rfl⟩ : ∃ m0, m = m0 + 1 := ⟨m - 1, by omega⟩
      have hstep := daysBeforeMonth_step y m0 (by omega) (by omega)
      have hpos := daysInMonth_pos y m0 (by omega) (by omega)
      simp only [Nat.add_sub_cancel]
      omega
    · have hm' : m = 1 := by omega
      subst hm'
      unfold prevDay
      rw [if_neg h2, if_neg hm]
      unfold dayNumber
      dsimp only
      obtain ⟨y0, rfl⟩ : ∃ y0, y = y0 + 1 := ⟨y - 1, by omega⟩
      simp only [Nat.add_sub_cancel, daysBeforeYear, daysBeforeMonth, daysInYear]
      omega

/-! ## The detection window -/

/-- The window configuration read from `config`: start/end hour and minute of
the outage-detection window, and the outage end-type code. -/
structure Config where
  startHour : Nat
  startMinute : Nat
  endHour : Nat
  endMinute : Nat
  endType : Int
deriving DecidableEq

/-- Minute index (on the model timeline) of the civil time `h:m` on day `d`. -/
def minutesOf (d : CivilDate) (h m : Nat) : Nat :=
  dayNumber d * 1440 + (h * 60 + m)

/-- `window_start` of `find_power_off_record`: yesterday at the configured
start time, as a minute index. -/
def windowStartMin (cfg : Config) (today : CivilDate) : Nat :=
  minutesOf (prevDay today) cfg.startHour cfg.startMinute

/-- `window_end` of `find_power_off_record`: today at the configured end time,
as a minute index. -/
def windowEndMin (cfg : Config) (today : CivilDate) : Nat :=
  minutesOf today cfg.endHour cfg.endMinute

/-- `window_start` in epoch milliseconds of the model timeline. -/
def windowStartMs (cfg : Config) (today : CivilDate) : Int :=
  (windowStartMin cfg today : Int) * 60000

/-- `window_end` in epoch milliseconds of the model timeline. -/
def windowEndMs (cfg : Config) (today : CivilDate) : Int :=
  (windowEndMin cfg today : Int) * 60000

/-- `find_power_off_record` (src/main.py lines 148-193): computes today's
window from the current Beijing date and scans the records with `findRec`. -/
def find_power_off_record (cfg : Config) (today : CivilDate)
    (logs : List ChargeRecord) : Option ChargeRecord :=
  findRec (windowStartMs cfg today) (windowEndMs cfg today) cfg.endType logs

/-- C9 (amended): for every valid configuration and every valid current date,
the window starts yesterday at the configured start time and ends today at the
configured end time, `start < end`, the window brackets today's midnight, and
the endpoints are between 1 minute and 2879 minutes (just under 48 hours)
apart.  The original claim's "both endpoints fall within a 24-25 hour span" is
refuted by `c9_counterexample`. -/
theorem c9_window (cfg : Config) (d : CivilDate)
    (hv : ValidDate d) (hy : 1 ≤ d.year)
    (hsh : cfg.startHour ≤ 23) (hsm : cfg.startMinute ≤ 59)
    (heh : cfg.endHour ≤ 23) (hem : cfg.endMinute ≤ 59) :
    windowStartMin cfg d
        = dayNumber (prevDay d) * 1440 + (cfg.startHour * 60 + cfg.startMinute)
    ∧ windowEndMin cfg d
        = dayNumber d * 1440 + (cfg.endHour * 60 + cfg.endMinute)
    ∧ windowStartMin cfg d < windowEndMin cfg d
    ∧ windowStartMin cfg d ≤ dayNumber d * 1440
    ∧ dayNumber d * 1440 ≤ windowEndMin cfg d
    ∧ 1 ≤ windowEndMin cfg d - windowStartMin cfg d
    ∧ windowEndMin cfg d - windowStartMin cfg d ≤ 2879 := by
  have hprev := dayNumber_prevDay d hv hy
  unfold windowStartMin windowEndMin minutesOf
  refine ⟨rfl, rfl, ?_, ?_, ?_, ?_, ?_⟩ <;> omega

theorem c9_window_witness :
    windowStartMin ⟨23, 45, 0, 15, 39⟩ ⟨5, 6, 10⟩
        = dayNumber (prevDay ⟨5, 6, 10⟩) * 1440 + (23 * 60 + 45)
    ∧ windowEndMin ⟨23, 45, 0, 15, 39⟩ ⟨5, 6, 10⟩
        = dayNumber ⟨5, 6, 10⟩ * 1440 + (0 * 60 + 15)
    ∧ windowStartMin ⟨23, 45, 0, 15, 39⟩ ⟨5, 6, 10⟩
        < windowEndMin ⟨23, 45, 0, 15, 39⟩ ⟨5, 6, 10⟩
    ∧ windowStartMin ⟨23, 45, 0, 15, 39⟩ ⟨5, 6, 10⟩ ≤ dayNumber ⟨5, 6, 10⟩ * 1440
    ∧ dayNumber ⟨5, 6, 10⟩ * 1440 ≤ windowEndMin ⟨23, 45, 0, 15, 39⟩ ⟨5, 6, 10⟩
    ∧ 1 ≤ windowEndMin ⟨23, 45, 0, 15, 39⟩ ⟨5, 6, 10⟩
          - windowStartMin ⟨23, 45, 0, 15, 39⟩ ⟨5, 6, 10⟩
    ∧ windowEndMin ⟨23, 45, 0, 15, 39⟩ ⟨5, 6, 10⟩
          - windowStartMin ⟨23, 45, 0, 15, 39⟩ ⟨5, 6, 10⟩ ≤ 2879 :=
  c9_window ⟨23, 45, 0, 15, 39⟩ ⟨5, 6, 10⟩ (by decide) (by decide)
    (by decide) (by decide) (by decide) (by decide)

/-- C9 counterexample: with the valid configuration start 00:00, end 23:59 and
the valid date year 3, March 15, the two window endpoints are 2879 minutes
apart, so they do not both fit in any 25-hour (1500-minute) span; the claimed
"both endpoints fall within a 24-25 hour span bracketing midnight" fails. -/
theorem c9_counterexample :
    ValidDate ⟨3, 3, 15⟩
    ∧ (0 : Nat) ≤ 23 ∧ (0 : Nat) ≤ 59 ∧ (23 : Nat) ≤ 23 ∧ (59 : Nat) ≤ 59
    ∧ windowStartMin ⟨0, 0, 23, 59, 39⟩ ⟨3, 3, 15⟩ + 1500
        < windowEndMin ⟨0, 0, 23, 59, 39⟩ ⟨3, 3, 15⟩ := by
  refine ⟨by decide, by decide, by decide, by decide, by decide, ?_⟩
  decide

/-! ## Port availability checker -/

/-- Whitespace characters stripped by Python's `int(str)` before parsing. -/
def isPySpace (c : Char) : Bool :=
  c = ' ' || c = '\t' || c = '\n' || c = '\r' || c = '\x0b' || c = '\x0c'

def stripChars (cs : List Char) : List Char :=
  ((cs.dropWhile isPySpace).reverse.dropWhile isPySpace).reverse

/-- Value of a nonempty ASCII digit sequence, allowing single underscores
between digits (Python's numeric-literal grouping), continuing from `acc`. -/
def digitsValAux (acc : Nat) : List Char → Option Nat
  | [] => some acc
  | c :: rest =>
    if c.isDigit then digitsValAux (10 * acc + (c.toNat - 48)) rest
    else if c = '_' then
      match rest with
      | [] => none
      | d :: rest2 =>
        if d.isDigit then digitsValAux (10 * acc + (d.toNat - 48)) rest2
        else none
    else none

def digitsVal : List Char → Option Nat
  | [] => none
  | c :: rest => if c.isDigit then digitsValAux (c.toNat - 48) rest else none

/-- Python's `int(str)`: optional surrounding whitespace, optional sign, ASCII
decimal digits with single underscores between digits; anything else raises
`ValueError`, modelled by `none`.  (Python additionally accepts some non-ASCII
decimal digits and spaces; those are not modelled.) -/
def pyInt (s : String) : Option Int :=
  match stripChars s.toList with
  | '+' :: rest => (digitsVal rest).map (fun n => (n : Int))
  | '-' :: rest => (digitsVal rest).map (fun n => -(n : Int))
  | cs => (digitsVal cs).map (fun n => (n : Int))

/-- Python string indexing `s[i]`: non-negative indices from the front,
negative indices from the back; out of range raises `IndexError`, modelled by
`none`. -/
def pyIndex (s : String) (i : Int) : Option Char :=
  let cs := s.toList
  if 0 ≤ i then cs.get? i.toNat
  else if -(cs.length : Int) ≤ i then cs.get? (cs.length - (-i).toNat)
  else none

/-- `is_port_free` (src/main.py lines 196-204): parse the port index with
`int`, reject indices `≥ len(portstatur)`, then test whether the indexed
status character is the free code `"0"`.  `ValueError` and `IndexError` are
caught and yield `False`. -/
def is_port_free (portstatur : String) (port : String) : Bool :=
  match pyInt port with
  | none => false
  | some i =>
    if (portstatur.length : Int) ≤ i then false
    else
      match pyIndex portstatur i with
      | none => false
      | some c => c == '0'

/-- C3 counterexample: the claim says `isPortFree` returns `true` only when the
port index parses as a non-negative integer; but `int("-1")` succeeds in Python
and `"10"[-1]` is the last character `'0'`, so `is_port_free "10" "-1"` is
`true` with a negative parsed index. -/
theorem c3_counterexample :
    is_port_free ("10") ("-1") = true ∧ pyInt ("-1") = some (-1)
    ∧ (-1 : Int) < 0 := by
  refine ⟨by decide, by decide, by decide⟩

/-- C3 (amended): `is_port_free` returns `true` exactly when the port index
parses as an integer `i` (possibly negative) with `i < len(portstatur)` such
that Python indexing `portstatur[i]` — counting from the back when `i` is
negative — yields the free code `'0'`.  It returns `false` on parse failure,
on `i ≥ len(portstatur)`, on `i < -len(portstatur)`, and on any status
character other than `'0'`. -/
theorem c3_port_free (portstatur port : String) :
    is_port_free portstatur port = true ↔
      ∃ i, pyInt port = some i ∧ i < (portstatur.length : Int) ∧
        pyIndex portstatur i = some '0' := by
  unfold is_port_free
  cases hp : pyInt port with
  | none => simp
  | some i =>
    by_cases hlen : (portstatur.length : Int) ≤ i
    · simp only [if_pos hlen]
      constructor
      · intro h; exact absurd h (by simp)
      · rintro ⟨i', hi', hlt, _⟩
        obtain rfl := Option.some.inj hi'
        omega
    · simp only [if_neg hlen]
      cases hq : pyIndex portstatur i with
      | none =>
        constructor
        · intro h; exact absurd h (by simp)
        · rintro ⟨i', hi', _, hc⟩
          obtain rfl := Option.some.inj hi'
          rw [hq] at hc
          exact Option.noConfusion hc
      | some c =>
        constructor
        · intro h
          exact ⟨i, rfl, by omega, by rw [hq, beq_iff_eq.mp h]⟩
        · rintro ⟨i', hi', _, hc⟩
          obtain rfl := Option.some.inj hi'
          rw [hq] at hc
          exact beq_iff_eq.mpr (Option.some.inj hc)

/-- C4: `is_port_free` is a total function of its two string arguments, and
every failure path — unparsable index, index past the end of the status
string, index before the start under Python's negative indexing, or a status
character other than the free code — yields `false`; the result is always one
of `true` and `false`. -/
theorem c4_fail_closed (portstatur port : String) :
    (pyInt port = none → is_port_free portstatur port = false)
    ∧ (∀ i, pyInt port = some i → (portstatur.length : Int) ≤ i →
        is_port_free portstatur port = false)
    ∧ (∀ i, pyInt port = some i → pyIndex portstatur i = none →
        is_port_free portstatur port = false)
    ∧ (∀ i c, pyInt port = some i → pyIndex portstatur i = some c → c ≠ '0' →
        is_port_free portstatur port = false)
    ∧ (is_port_free portstatur port = true ∨ is_port_free portstatur port = false) := by
  refine ⟨?_, ?_, ?_, ?_, ?_⟩
  · intro h; simp [is_port_free, h]
  · intro i hi hlen
    simp [is_port_free, hi, if_pos hlen]
  · intro i hi hq
    by_cases hlen : (portstatur.length : Int) ≤ i
    · simp [is_port_free, hi, if_pos hlen]
    · simp [is_port_free, hi, if_neg hlen, hq]
  · intro i c hi hq hc
    by_cases hlen : (portstatur.length : Int) ≤ i
    · simp [is_port_free, hi, if_pos hlen]
    · simp [is_port_free, hi, if_neg hlen, hq, hc]
  · cases h : is_port_free portstatur port
    · exact Or.inr rfl
    · exact Or.inl rfl

theorem c4_fail_closed_witness :
    is_port_free ("10") ("abc") = false
    ∧ is_port_free ("10") ("7") = false
    ∧ is_port_free ("10") ("-9") = false
    ∧ is_port_free ("10") ("1") = true :=
  ⟨(c4_fail_closed ("10") ("abc")).1 (by decide),
   (c4_fail_closed ("10") ("7")).2.1 7 (by decide) (by decide),
   (c4_fail_closed ("10") ("-9")).2.2.1 (-9) (by decide) (by decide),
   by decide⟩

/-! ## The remote API environment and the orchestrator

Each endpoint is a value of the environment: `Except.error e` models the HTTP
call (or JSON decoding) raising a Python exception with text `e`; `Except.ok`
carries the decoded JSON response, a `success` flag plus optional payload.
The orchestrator `try_charge` returns, besides its outcome, the list of API
calls it performed, in order. -/

/-- `ChargeResult` (src/main.py lines 55-60). -/
inductive ChargeResult
  | SUCCESS
  | NO_RECORD
  | PORT_BUSY
  | ERROR
deriving DecidableEq

/-- The fields of the `getUserInfo` payload that the script reads. -/
structure UserInfo where
  readyaccountmoney : Option Int
deriving DecidableEq

/-- The fields of the `getDeviceInfo` payload that the script reads. -/
structure DeviceInfo where
  portstatur : Option String
  devtypeid : Option Int
  safeCharge : Option Int
  efee : Option Int
  eCharge : Option Int
  serviceCharge : Option Int
deriving DecidableEq

/-- A `term` parameter of `getChargeLog`: the `"%Y%m"` rendering of a year and
month. -/
structure MonthTerm where
  year : Nat
  month : Nat
deriving DecidableEq

def termOf (d : CivilDate) : MonthTerm := ⟨d.year, d.month⟩

/-- A JSON response with a `success` flag and an optional `obj` payload. -/
structure ApiResp (α : Type) where
  success : Bool
  obj : Option α
deriving DecidableEq

/-- The decoded JSON of a `beginCharge` response. -/
structure BeginResp where
  success : Bool
  obj : Option String
  msg : Option String
deriving DecidableEq

/-- The form parameters of a `beginCharge` request (src/main.py lines 111-129);
`money` and `beforemoney` are set to the same value by the script, and the
constant fields carry the literals of the source. -/
structure BeginParams where
  devaddress : String
  port : String
  money : Int
  beforemoney : Int
  devtypeid : Int
  fullStop : Int
  payType : Int
  safeOpen : Int
  safeCharge : Int
  edtType : Int
  efee : Int
  eCharge : Int
  serviceCharge : Int
  userId : Int
  yuan7 : Int
deriving DecidableEq

/-- The `params` dict built by `begin_charge`: device-specific values are taken
from the device info when present, else the fixed defaults. -/
def mkBeginParams (devaddress port : String) (money : Int) (d : DeviceInfo) :
    BeginParams where
  devaddress := devaddress
  port := port
  money := money
  beforemoney := money
  devtypeid := d.devtypeid.getD 40
  fullStop := 1
  payType := 1
  safeOpen := 0
  safeCharge := d.safeCharge.getD 9
  edtType := 0
  efee := d.efee.getD 110
  eCharge := d.eCharge.getD 55
  serviceCharge := d.serviceCharge.getD 55
  userId := 0
  yuan7 := 0

/-- One API call performed by the orchestrator. -/
inductive ApiCall
  | getUserInfo
  | getChargeLog (term : MonthTerm)
  | getDeviceInfo (devaddress : String)
  | beginCharge (params : BeginParams) (msgflag : Option String)
deriving DecidableEq

/-- The remote platform for one attempt: the response of each endpoint, and the
current Beijing civil date (`datetime.now(TZ_BEIJING)`). -/
structure ApiEnv where
  userInfoResp : Except String (ApiResp UserInfo)
  chargeLogResp : MonthTerm → Except String (ApiResp (List ChargeRecord))
  deviceInfoResp : String → Except String (ApiResp DeviceInfo)
  beginChargeResp : BeginParams → Option String → Except String BeginResp
  now : CivilDate

/-- `get_user_info` (src/main.py lines 69-77): the payload when the success
flag is set, else `None`. -/
def get_user_info (env : ApiEnv) : Except String (Option UserInfo) :=
  match env.userInfoResp with
  | .error e => .error e
  | .ok r => .ok (if r.success then r.obj else none)

/-- `get_charge_log` (src/main.py lines 80-88): the payload (defaulting to the
empty list when absent) when the success flag is set, else the empty list. -/
def get_charge_log (env : ApiEnv) (term : MonthTerm) :
    Except String (List ChargeRecord) :=
  match env.chargeLogResp term with
  | .error e => .error e
  | .ok r => .ok (if r.success then r.obj.getD [] else [])

/-- `get_device_info` (src/main.py lines 91-99). -/
def get_device_info (env : ApiEnv) (devaddress : String) :
    Except String (Option DeviceInfo) :=
  match env.deviceInfoResp devaddress with
  | .error e => .error e
  | .ok r => .ok (if r.success then r.obj else none)

/-- Python `str` of an optional string (an absent `msg` prints as `None`). -/
def pyStr : Option String → String
  | none => "None"
  | some s => s

/-- Truthiness of the `obj` field: `None` and the empty string are falsy. -/
def truthyStr : Option String → Option String
  | none => none
  | some s => if s = "" then none else some s

/-- Two-decimal rendering of `balance / 100` (the `f"{balance / 100:.2f}"` of
the source, exact for the non-negative balances that reach it). -/
def fmtYuan (b : Int) : String :=
  toString (b / 100) ++ "." ++
    (if b % 100 < 10 then ("0" ++ toString (b % 100)) else toString (b % 100))

/-- The success message of `try_charge` (src/main.py line 275). -/
def successMsg (devaddress port : String) (balance : Int) : String :=
  "设备=" ++ devaddress ++ ", 端口=" ++ port ++ ", 金额=" ++ fmtYuan balance ++ "元"

/-- `begin_charge` (src/main.py lines 102-145): first call without `msgflag`;
on a failed first call or a falsy token, report failure without a second call;
otherwise resubmit the same parameters plus the token and return the final
response.  The second component lists the `beginCharge` requests issued. -/
def begin_charge (env : ApiEnv) (devaddress port : String) (money : Int)
    (device_info : DeviceInfo) : Except String BeginResp × List ApiCall :=
  match env.beginChargeResp (mkBeginParams devaddress port money device_info) none with
  | .error e => (.error e, [.beginCharge (mkBeginParams devaddress port money device_info) none])
  | .ok result1 =>
    if result1.success then
      match truthyStr result1.obj with
      | none =>
        (.ok ⟨false, none, some ("未获取到 msgflag")⟩,
          [.beginCharge (mkBeginParams devaddress port money device_info) none])
      | some msgflag =>
        match env.beginChargeResp (mkBeginParams devaddress port money device_info)
            (some msgflag) with
        | .error e =>
          (.error e,
            [.beginCharge (mkBeginParams devaddress port money device_info) none,
             .beginCharge (mkBeginParams devaddress port money device_info) (some msgflag)])
        | .ok result2 =>
          (.ok result2,
            [.beginCharge (mkBeginParams devaddress port money device_info) none,
             .beginCharge (mkBeginParams devaddress port money device_info) (some msgflag)])
    else
      (.ok ⟨false, none, some ("第一步失败: " ++ pyStr result1.msg)⟩,
        [.beginCharge (mkBeginParams devaddress port money device_info) none])

/-- Step 2 of `try_charge` (src/main.py lines 228-239): fetch this month's
history, and also last month's when the day of month is at most 3; concatenate
in that order. -/
def fetchHistory (env : ApiEnv) : Except String (List ChargeRecord) × List ApiCall :=
  match get_charge_log env (termOf env.now) with
  | .error e => (.error e, [.getChargeLog (termOf env.now)])
  | .ok logs1 =>
    if env.now.day ≤ 3 then
      match get_charge_log env (termOf (prevDay ⟨env.now.year, env.now.month, 1⟩)) with
      | .error e =>
        (.error e,
          [.getChargeLog (termOf env.now),
           .getChargeLog (termOf (prevDay ⟨env.now.year, env.now.month, 1⟩))])
      | .ok logs2 =>
        (.ok (logs1 ++ logs2),
          [.getChargeLog (termOf env.now),
           .getChargeLog (termOf (prevDay ⟨env.now.year, env.now.month, 1⟩))])
    else
      (.ok logs1, [.getChargeLog (termOf env.now)])

/-- Steps 4-7 of `try_charge` (src/main.py lines 252-277): device info, port
check, two-phase charge start, outcome classification. -/
def stageDevice (env : ApiEnv) (balance : Int) (rec : ChargeRecord) :
    Except String (ChargeResult × String) × List ApiCall :=
  match get_device_info env rec.devaddress with
  | .error e => (.error e, [.getDeviceInfo rec.devaddress])
  | .ok none => (.ok (.ERROR, "获取设备信息失败"), [.getDeviceInfo rec.devaddress])
  | .ok (some device_info) =>
    if is_port_free (device_info.portstatur.getD ("")) rec.devport = false then
      (.ok (.PORT_BUSY, "端口 " ++ rec.devport ++ " 非空闲（可能充电桩未开启）"),
        [.getDeviceInfo rec.devaddress])
    else
      match begin_charge env rec.devaddress rec.devport balance device_info with
      | (.error e, calls) => (.error e, .getDeviceInfo rec.devaddress :: calls)
      | (.ok result, calls) =>
        if result.success then
          (.ok (.SUCCESS, successMsg rec.devaddress rec.devport balance),
            .getDeviceInfo rec.devaddress :: calls)
        else
          (.ok (.ERROR, "充电启动失败: " ++ pyStr result.msg),
            .getDeviceInfo rec.devaddress :: calls)

/-- Steps 2-7 of `try_charge` (src/main.py lines 227-277): history, matcher,
then the device stage. -/
def stageHistory (cfg : Config) (env : ApiEnv) (balance : Int) :
    Except String (ChargeResult × String) × List ApiCall :=
  match fetchHistory env with
  | (.error e, calls) => (.error e, calls)
  | (.ok logs, calls) =>
    if logs.isEmpty then (.ok (.NO_RECORD, "无充电历史记录"), calls)
    else
      match find_power_off_record cfg env.now logs with
      | none => (.ok (.NO_RECORD, "未找到符合条件的断电记录"), calls)
      | some rec =>
        match stageDevice env balance rec with
        | (res, calls2) => (res, calls ++ calls2)

/-- The body of `try_charge`'s `try:` block (src/main.py lines 214-277), before
the `except` handler: `Except.error` is an uncaught Python exception. -/
def tryChargeAux (cfg : Config) (env : ApiEnv) :
    Except String (ChargeResult × String) × List ApiCall :=
  match get_user_info env with
  | .error e => (.error e, [.getUserInfo])
  | .ok none => (.ok (.ERROR, "获取用户信息失败"), [.getUserInfo])
  | .ok (some user_info) =>
    if user_info.readyaccountmoney.getD 0 < 100 then
      (.ok (.ERROR, "余额不足 1 元"), [.getUserInfo])
    else
      match stageHistory cfg env (user_info.readyaccountmoney.getD 0) with
      | (res, calls) => (res, .getUserInfo :: calls)

/-- `try_charge` (src/main.py lines 207-280): the `try:` body with every raised
exception converted by the `except` handler into the `ERROR` outcome carrying
a diagnostic message. -/
def try_charge (cfg : Config) (env : ApiEnv) :
    (ChargeResult × String) × List ApiCall :=
  match tryChargeAux cfg env with
  | (.error e, calls) => ((.ERROR, "发生异常: " ++ e), calls)
  | (.ok res, calls) => (res, calls)

/-! ## Retry/attempt controller -/

/-- `MAX_RETRIES` (src/main.py line 39). -/
def MAX_RETRIES : Nat := 3

/-- `RETRY_INTERVAL` in seconds (src/main.py line 40). -/
def RETRY_INTERVAL : Nat := 600

/-- Terminal state of the controller after a run. -/
inductive CtrlState
  | Succeeded
  | Skipped
  | Exhausted
deriving DecidableEq

/-- Observable effects of one controller run: attempts made, sleeps performed
(each of `RETRY_INTERVAL` seconds), terminal state. -/
structure CtrlRun where
  attempts : Nat
  sleeps : Nat
  state : CtrlState
deriving DecidableEq

/-- The retry loop of `main` (src/main.py lines 299-329) over the attempt
outcomes, one list entry per potential attempt (`for attempt in
range(1, MAX_RETRIES + 1)`): return on `SUCCESS` or `NO_RECORD`; otherwise
sleep and continue while attempts remain (`attempt < MAX_RETRIES`, i.e. the
remaining-outcome list is nonempty), else exit exhausted. -/
def runSteps : List ChargeResult → Nat → Nat → CtrlRun
  | [], att, slp => ⟨att, slp, .Exhausted⟩
  | r :: rest, att, slp =>
    match r with
    | .SUCCESS => ⟨att + 1, slp, .Succeeded⟩
    | .NO_RECORD => ⟨att + 1, slp, .Skipped⟩
    | _ =>
      match rest with
      | [] => ⟨att + 1, slp, .Exhausted⟩
      | _ :: _ => runSteps rest (att + 1) (slp + 1)

/-- Run the controller on the per-attempt outcomes. -/
def runController (outcomes : List ChargeResult) : CtrlRun :=
  runSteps outcomes 0 0

def isTerminal : ChargeResult → Bool
  | .SUCCESS => true
  | .NO_RECORD => true
  | _ => false

def terminalState : ChargeResult → CtrlState
  | .SUCCESS => .Succeeded
  | .NO_RECORD => .Skipped
  | _ => .Exhausted

/-! ## Orchestrator lemmas -/

theorem try_charge_of_aux_ok (cfg : Config) (env : ApiEnv)
    (r : ChargeResult × String) (calls : List ApiCall)
    (h : tryChargeAux cfg env = (.ok r, calls)) :
    try_charge cfg env = (r, calls) := by
  unfold try_charge
  rw [h]

theorem try_charge_of_aux_error (cfg : Config) (env : ApiEnv)
    (e : String) (calls : List ApiCall)
    (h : tryChargeAux cfg env = (.error e, calls)) :
    try_charge cfg env = ((.ERROR, "发生异常: " ++ e), calls) := by
  unfold try_charge
  rw [h]

theorem tryChargeAux_balance_low (cfg : Config) (env : ApiEnv) (u : UserInfo)
    (h1 : env.userInfoResp = .ok ⟨true, some u⟩)
    (hb : u.readyaccountmoney.getD 0 < 100) :
    tryChargeAux cfg env = (.ok (.ERROR, "余额不足 1 元"), [.getUserInfo]) := by
  unfold tryChargeAux get_user_info
  rw [h1]
  simp [hb]

theorem tryChargeAux_balance_ok (cfg : Config) (env : ApiEnv) (u : UserInfo)
    (h1 : env.userInfoResp = .ok ⟨true, some u⟩)
    (hb : ¬ (u.readyaccountmoney.getD 0 < 100)) :
    tryChargeAux cfg env =
      ((stageHistory cfg env (u.readyaccountmoney.getD 0)).1,
        .getUserInfo :: (stageHistory cfg env (u.readyaccountmoney.getD 0)).2) := by
  unfold tryChargeAux get_user_info
  rw [h1]
  rcases hsh : stageHistory cfg env (u.readyaccountmoney.getD 0) with ⟨res, calls⟩
  simp [hb, hsh]

theorem fetchHistory_calls (env : ApiEnv) :
    ∃ res rest, fetchHistory env = (res, .getChargeLog (termOf env.now) :: rest) := by
  unfold fetchHistory
  cases hc : get_charge_log env (termOf env.now) with
  | error e => exact ⟨.error e, [], rfl⟩
  | ok logs1 =>
    by_cases hd : env.now.day ≤ 3
    · simp only [if_pos hd]
      cases hc2 : get_charge_log env (termOf (prevDay ⟨env.now.year, env.now.month, 1⟩)) with
      | error e =>
        exact ⟨.error e, [.getChargeLog (termOf (prevDay ⟨env.now.year, env.now.month, 1⟩))], rfl⟩
      | ok logs2 =>
        exact ⟨.ok (logs1 ++ logs2),
          [.getChargeLog (termOf (prevDay ⟨env.now.year, env.now.month, 1⟩))], rfl⟩
    · simp only [if_neg hd]
      exact ⟨.ok logs1, [], rfl⟩

theorem stageHistory_calls (cfg : Config) (env : ApiEnv) (balance : Int) :
    ∃ res rest, stageHistory cfg env balance
        = (res, .getChargeLog (termOf env.now) :: rest) := by
  obtain ⟨res0, rest0, hf⟩ := fetchHistory_calls env
  unfold stageHistory
  rw [hf]
  cases res0 with
  | error e => exact ⟨.error e, rest0, rfl⟩
  | ok logs =>
    by_cases he : logs.isEmpty
    · simp only [he, if_pos]
      exact ⟨_, rest0, rfl⟩
    · simp only [if_neg he]
      cases hm : find_power_off_record cfg env.now logs with
      | none => exact ⟨_, rest0, rfl⟩
      | some rec =>
        rcases hsd : stageDevice env balance rec with ⟨res2, calls2⟩
        exact ⟨res2, rest0 ++ calls2, by simp [hsd]⟩

/-- C5: when the fetched balance is below 100 minor units the attempt stops at
the balance check with the insufficient-balance `ERROR` and performs no later
API call; when the balance is at least 100 the attempt proceeds past the
balance check to the history fetch. -/
theorem c5_balance (cfg : Config) (env : ApiEnv) (u : UserInfo)
    (h1 : env.userInfoResp = .ok ⟨true, some u⟩) :
    (u.readyaccountmoney.getD 0 < 100 →
      try_charge cfg env = ((.ERROR, "余额不足 1 元"), [.getUserInfo]))
    ∧ (100 ≤ u.readyaccountmoney.getD 0 →
      ∃ rest, (try_charge cfg env).2
          = .getUserInfo :: .getChargeLog (termOf env.now) :: rest) := by
  constructor
  · intro hb
    exact try_charge_of_aux_ok cfg env _ _ (tryChargeAux_balance_low cfg env u h1 hb)
  · intro hb
    have hb' : ¬ (u.readyaccountmoney.getD 0 < 100) := by omega
    have hA := tryChargeAux_balance_ok cfg env u h1 hb'
    obtain ⟨res, rest, hsh⟩ := stageHistory_calls cfg env (u.readyaccountmoney.getD 0)
    refine ⟨rest, ?_⟩
    unfold try_charge
    rw [hA, hsh]
    cases res <;> rfl

/-- Environment used to instantiate theorems on the low-balance path. -/
def envLow : ApiEnv where
  userInfoResp := .ok ⟨true, some ⟨some 50⟩⟩
  chargeLogResp := fun _ => .ok ⟨true, some []⟩
  deviceInfoResp := fun _ => .ok ⟨false, none⟩
  beginChargeResp := fun _ _ => .ok ⟨false, none, none⟩
  now := ⟨5, 6, 10⟩

/-- The default window configuration of the source's docstrings. -/
def cfg0 : Config := ⟨23, 45, 0, 15, 39⟩

theorem c5_balance_witness :
    try_charge cfg0 envLow = ((.ERROR, "余额不足 1 元"), [.getUserInfo]) :=
  (c5_balance cfg0 envLow ⟨some 50⟩ rfl).1 (by decide)

/-- C8: `try_charge` never propagates a fault: whenever its body raises, the
handler converts the fault into the `ERROR` outcome with the diagnostic
message, and every invocation yields one of the four outcomes. -/
theorem c8_no_raw_fault (cfg : Config) (env : ApiEnv) :
    (∀ e calls, tryChargeAux cfg env = (.error e, calls) →
        try_charge cfg env = ((.ERROR, "发生异常: " ++ e), calls))
    ∧ ((try_charge cfg env).1.1 = .SUCCESS ∨ (try_charge cfg env).1.1 = .NO_RECORD
        ∨ (try_charge cfg env).1.1 = .PORT_BUSY ∨ (try_charge cfg env).1.1 = .ERROR) := by
  constructor
  · intro e calls h
    exact try_charge_of_aux_error cfg env e calls h
  · cases h : (try_charge cfg env).1.1 <;> simp [h]

/-- Environment whose user-info request raises a network fault. -/
def envRaise : ApiEnv where
  userInfoResp := .error ("boom")
  chargeLogResp := fun _ => .ok ⟨true, some []⟩
  deviceInfoResp := fun _ => .ok ⟨false, none⟩
  beginChargeResp := fun _ _ => .ok ⟨false, none, none⟩
  now := ⟨5, 6, 10⟩

theorem c8_no_raw_fault_witness :
    try_charge cfg0 envRaise = ((.ERROR, "发生异常: " ++ "boom"), [.getUserInfo]) :=
  (c8_no_raw_fault cfg0 envRaise).1 ("boom") [.getUserInfo] rfl

/-- C2: the retry controller makes at most `MAX_RETRIES = 3` attempts; it stops
immediately (without sleeping) after an attempt whose outcome is `SUCCESS` or
`NO_RECORD`; after a `PORT_BUSY` or `ERROR` outcome it sleeps once (the fixed
10-minute interval) and re-attempts only while attempts remain, and after the
third non-terminal outcome it stops exhausted; the sleeps performed are always
one fewer than the attempts made. -/
theorem c2_controller (o1 o2 o3 : ChargeResult) :
    runController [o1, o2, o3] =
      (if isTerminal o1 then ⟨1, 0, terminalState o1⟩
       else if isTerminal o2 then ⟨2, 1, terminalState o2⟩
       else if isTerminal o3 then ⟨3, 2, terminalState o3⟩
       else ⟨3, 2, CtrlState.Exhausted⟩)
    ∧ (runController [o1, o2, o3]).attempts ≤ MAX_RETRIES
    ∧ (runController [o1, o2, o3]).sleeps + 1 = (runController [o1, o2, o3]).attempts
    ∧ MAX_RETRIES = 3 ∧ RETRY_INTERVAL = 10 * 60 := by
  cases o1 <;> cases o2 <;> cases o3 <;> decide

theorem stageHistory_empty (cfg : Config) (env : ApiEnv) (balance : Int)
    (calls : List ApiCall) (hf : fetchHistory env = (.ok [], calls)) :
    stageHistory cfg env balance = (.ok (.NO_RECORD, "无充电历史记录"), calls) := by
  unfold stageHistory
  rw [hf]
  rfl

theorem try_charge_empty_history (cfg : Config) (env : ApiEnv) (u : UserInfo)
    (calls : List ApiCall)
    (h1 : env.userInfoResp = .ok ⟨true, some u⟩)
    (hb : ¬ (u.readyaccountmoney.getD 0 < 100))
    (hf : fetchHistory env = (.ok [], calls)) :
    try_charge cfg env = ((.NO_RECORD, "无充电历史记录"), .getUserInfo :: calls) := by
  have hA := tryChargeAux_balance_ok cfg env u h1 hb
  rw [stageHistory_empty cfg env (u.readyaccountmoney.getD 0) calls hf] at hA
  exact try_charge_of_aux_ok cfg env _ _ hA

/-- C6: past the balance check, an attempt fetches the current month's charge
history, and additionally the previous month's exactly when the day of month
is at most 3, concatenating the two lists current month first; the previous
month's term is the calendar-correct predecessor (December of the previous
year in January); and when the concatenated history is empty the attempt's
outcome is `NO_RECORD`. -/
theorem c6_history (cfg : Config) (env : ApiEnv) (u : UserInfo)
    (h1 : env.userInfoResp = .ok ⟨true, some u⟩)
    (hb : ¬ (u.readyaccountmoney.getD 0 < 100)) :
    (3 < env.now.day → ∀ l1, get_charge_log env (termOf env.now) = .ok l1 →
        fetchHistory env = (.ok l1, [.getChargeLog (termOf env.now)]))
    ∧ (env.now.day ≤ 3 → ∀ l1 l2, get_charge_log env (termOf env.now) = .ok l1 →
        get_charge_log env (termOf (prevDay ⟨env.now.year, env.now.month, 1⟩)) = .ok l2 →
        fetchHistory env = (.ok (l1 ++ l2),
          [.getChargeLog (termOf env.now),
           .getChargeLog (termOf (prevDay ⟨env.now.year, env.now.month, 1⟩))]))
    ∧ (2 ≤ env.now.month →
        termOf (prevDay ⟨env.now.year, env.now.month, 1⟩)
          = ⟨env.now.year, env.now.month - 1⟩)
    ∧ (env.now.month = 1 →
        termOf (prevDay ⟨env.now.year, env.now.month, 1⟩)
          = ⟨env.now.year - 1, 12⟩)
    ∧ (∀ calls, fetchHistory env = (.ok [], calls) →
        try_charge cfg env = ((.NO_RECORD, "无充电历史记录"), .getUserInfo :: calls)) := by
  refine ⟨?_, ?_, ?_, ?_, ?_⟩
  · intro hd l1 hl1
    have hd' : ¬ (env.now.day ≤ 3) := by omega
    unfold fetchHistory
    rw [hl1]
    simp [hd']
  · intro hd l1 l2 hl1 hl2
    unfold fetchHistory
    rw [hl1]
    simp [hd, hl2]
  · intro hm
    simp [prevDay, termOf, hm]
  · intro hm
    simp [prevDay, termOf, hm]
  · intro calls hf
    exact try_charge_empty_history cfg env u calls h1 hb hf

/-- Environment with a sufficient balance and an empty charge history. -/
def envEmptyHist : ApiEnv where
  userInfoResp := .ok ⟨true, some ⟨some 200⟩⟩
  chargeLogResp := fun _ => .ok ⟨true, some []⟩
  deviceInfoResp := fun _ => .ok ⟨false, none⟩
  beginChargeResp := fun _ _ => .ok ⟨false, none, none⟩
  now := ⟨5, 6, 10⟩

theorem c6_history_witness :
    fetchHistory envEmptyHist = (.ok [], [.getChargeLog (termOf envEmptyHist.now)])
    ∧ termOf (prevDay ⟨envEmptyHist.now.year, envEmptyHist.now.month, 1⟩)
        = ⟨envEmptyHist.now.year, envEmptyHist.now.month - 1⟩
    ∧ try_charge cfg0 envEmptyHist
        = ((.NO_RECORD, "无充电历史记录"),
            [.getUserInfo, .getChargeLog (termOf envEmptyHist.now)]) :=
  ⟨(c6_history cfg0 envEmptyHist ⟨some 200⟩ rfl (by decide)).1 (by decide) [] rfl,
   (c6_history cfg0 envEmptyHist ⟨some 200⟩ rfl (by decide)).2.2.1 (by decide),
   (c6_history cfg0 envEmptyHist ⟨some 200⟩ rfl (by decide)).2.2.2.2
     [.getChargeLog (termOf envEmptyHist.now)]
     ((c6_history cfg0 envEmptyHist ⟨some 200⟩ rfl (by decide)).1 (by decide) [] rfl)⟩

/-- C10: `get_charge_log` returns the empty list (not an error) when the
endpoint reports failure or omits its payload; consequently, with a
sufficient balance, when every month's history fetch fails this way the
attempt ends with the terminal `NO_RECORD` outcome, not `ERROR`. -/
theorem c10_failed_fetch (cfg : Config) (env : ApiEnv) (u : UserInfo)
    (h1 : env.userInfoResp = .ok ⟨true, some u⟩)
    (hb : ¬ (u.readyaccountmoney.getD 0 < 100))
    (hfail : ∀ term, ∃ r, env.chargeLogResp term = .ok r
        ∧ (r.success = false ∨ r.obj = none)) :
    (∀ term r, env.chargeLogResp term = .ok r → r.success = false ∨ r.obj = none →
        get_charge_log env term = .ok [])
    ∧ (try_charge cfg env).1 = (.NO_RECORD, "无充电历史记录") := by
  have hempty : ∀ term r, env.chargeLogResp term = .ok r →
      r.success = false ∨ r.obj = none → get_charge_log env term = .ok [] := by
    intro term r h hcase
    unfold get_charge_log
    rw [h]
    rcases hcase with hs | ho
    · simp [hs]
    · cases hsucc : r.success <;> simp [ho]
  refine ⟨hempty, ?_⟩
  have hfetch : ∃ calls, fetchHistory env = (.ok [], calls) := by
    obtain ⟨rT, hT, hcT⟩ := hfail (termOf env.now)
    have hl1 := hempty (termOf env.now) rT hT hcT
    by_cases hd : env.now.day ≤ 3
    · obtain ⟨rL, hL, hcL⟩ := hfail (termOf (prevDay ⟨env.now.year, env.now.month, 1⟩))
      have hl2 := hempty (termOf (prevDay ⟨env.now.year, env.now.month, 1⟩)) rL hL hcL
      refine ⟨[.getChargeLog (termOf env.now),
        .getChargeLog (termOf (prevDay ⟨env.now.year, env.now.month, 1⟩))], ?_⟩
      unfold fetchHistory
      rw [hl1]
      simp [hd, hl2]
    · refine ⟨[.getChargeLog (termOf env.now)], ?_⟩
      unfold fetchHistory
      rw [hl1]
      simp [hd]
  obtain ⟨calls, hf⟩ := hfetch
  rw [try_charge_empty_history cfg env u calls h1 hb hf]

/-- Environment with a sufficient balance whose charge-log endpoint always
reports failure. -/
def envLogFail : ApiEnv where
  userInfoResp := .ok ⟨true, some ⟨some 200⟩⟩
  chargeLogResp := fun _ => .ok ⟨false, none⟩
  deviceInfoResp := fun _ => .ok ⟨false, none⟩
  beginChargeResp := fun _ _ => .ok ⟨false, none, none⟩
  now := ⟨5, 6, 10⟩

theorem c10_failed_fetch_witness :
    get_charge_log envLogFail ⟨5, 6⟩ = .ok []
    ∧ (try_charge cfg0 envLogFail).1 = (.NO_RECORD, "无充电历史记录") :=
  ⟨(c10_failed_fetch cfg0 envLogFail ⟨some 200⟩ rfl (by decide)
      (fun term => ⟨⟨false, none⟩, rfl, Or.inl rfl⟩)).1 ⟨5, 6⟩ ⟨false, none⟩ rfl
     (Or.inl rfl),
   (c10_failed_fetch cfg0 envLogFail ⟨some 200⟩ rfl (by decide)
      (fun term => ⟨⟨false, none⟩, rfl, Or.inl rfl⟩)).2⟩

theorem begin_charge_first_fail (env : ApiEnv) (devaddress port : String)
    (money : Int) (d : DeviceInfo) (r1 : BeginResp)
    (hr1 : env.beginChargeResp (mkBeginParams devaddress port money d) none = .ok r1)
    (hs : r1.success = false) :
    begin_charge env devaddress port money d
      = (.ok ⟨false, none, some ("第一步失败: " ++ pyStr r1.msg)⟩,
          [.beginCharge (mkBeginParams devaddress port money d) none]) := by
  unfold begin_charge
  rw [hr1]
  simp [hs]

theorem begin_charge_no_flag (env : ApiEnv) (devaddress port : String)
    (money : Int) (d : DeviceInfo) (r1 : BeginResp)
    (hr1 : env.beginChargeResp (mkBeginParams devaddress port money d) none = .ok r1)
    (hs : r1.success = true) (hfl : truthyStr r1.obj = none) :
    begin_charge env devaddress port money d
      = (.ok ⟨false, none, some ("未获取到 msgflag")⟩,
          [.beginCharge (mkBeginParams devaddress port money d) none]) := by
  unfold begin_charge
  rw [hr1]
  simp [hs, hfl]

theorem begin_charge_two_calls (env : ApiEnv) (devaddress port : String)
    (money : Int) (d : DeviceInfo) (r1 : BeginResp) (flag : String) (r2 : BeginResp)
    (hr1 : env.beginChargeResp (mkBeginParams devaddress port money d) none = .ok r1)
    (hs : r1.success = true) (hfl : truthyStr r1.obj = some flag)
    (hr2 : env.beginChargeResp (mkBeginParams devaddress port money d) (some flag)
        = .ok r2) :
    begin_charge env devaddress port money d
      = (.ok r2,
          [.beginCharge (mkBeginParams devaddress port money d) none,
           .beginCharge (mkBeginParams devaddress port money d) (some flag)]) := by
  unfold begin_charge
  rw [hr1]
  simp [hs, hfl, hr2]

theorem stageDevice_begin_ok (env : ApiEnv) (balance : Int) (rec : ChargeRecord)
    (d : DeviceInfo) (res : BeginResp) (calls : List ApiCall)
    (hd : env.deviceInfoResp rec.devaddress = .ok ⟨true, some d⟩)
    (hfree : is_port_free (d.portstatur.getD ("")) rec.devport = true)
    (hbc : begin_charge env rec.devaddress rec.devport balance d = (.ok res, calls)) :
    stageDevice env balance rec
      = (.ok (if res.success then
                (.SUCCESS, successMsg rec.devaddress rec.devport balance)
              else (.ERROR, "充电启动失败: " ++ pyStr res.msg)),
          .getDeviceInfo rec.devaddress :: calls) := by
  unfold stageDevice get_device_info
  rw [hd]
  cases hres : res.success <;> simp [hfree, hbc, hres]

theorem stageHistory_found (cfg : Config) (env : ApiEnv) (balance : Int)
    (logs : List ChargeRecord) (calls : List ApiCall) (rec : ChargeRecord)
    (hf : fetchHistory env = (.ok logs, calls))
    (hne : logs.isEmpty = false)
    (hm : find_power_off_record cfg env.now logs = some rec) :
    stageHistory cfg env balance
      = ((stageDevice env balance rec).1, calls ++ (stageDevice env balance rec).2) := by
  unfold stageHistory
  rw [hf]
  rcases hsd : stageDevice env balance rec with ⟨res2, calls2⟩
  simp [hne, hm, hsd]

theorem try_charge_reach_begin (cfg : Config) (env : ApiEnv) (u : UserInfo)
    (logs : List ChargeRecord) (histCalls : List ApiCall) (rec : ChargeRecord)
    (d : DeviceInfo) (res : BeginResp) (calls : List ApiCall)
    (h1 : env.userInfoResp = .ok ⟨true, some u⟩)
    (hb : ¬ (u.readyaccountmoney.getD 0 < 100))
    (hf : fetchHistory env = (.ok logs, histCalls))
    (hne : logs.isEmpty = false)
    (hm : find_power_off_record cfg env.now logs = some rec)
    (hd : env.deviceInfoResp rec.devaddress = .ok ⟨true, some d⟩)
    (hfree : is_port_free (d.portstatur.getD ("")) rec.devport = true)
    (hbc : begin_charge env rec.devaddress rec.devport (u.readyaccountmoney.getD 0) d
        = (.ok res, calls)) :
    try_charge cfg env
      = ((if res.success then
            (ChargeResult.SUCCESS, successMsg rec.devaddress rec.devport
              (u.readyaccountmoney.getD 0))
          else (ChargeResult.ERROR, "充电启动失败: " ++ pyStr res.msg)),
          .getUserInfo :: (histCalls ++ (.getDeviceInfo rec.devaddress :: calls))) := by
  have hsd := stageDevice_begin_ok env (u.readyaccountmoney.getD 0) rec d res calls
    hd hfree hbc
  have hsh := stageHistory_found cfg env (u.readyaccountmoney.getD 0) logs histCalls rec
    hf hne hm
  rw [hsd] at hsh
  dsimp only at hsh
  have hA := tryChargeAux_balance_ok cfg env u h1 hb
  rw [hsh] at hA
  dsimp only at hA
  exact try_charge_of_aux_ok cfg env _ _ hA

/-- C7: an attempt that reaches the start-charge step issues a two-phase
`beginCharge` request whose `money` and `beforemoney` both equal the balance
fetched at step 1; the first call carries no confirmation token; if the first
call is rejected or yields no (truthy) token the outcome is `ERROR` and no
second call is made; otherwise the second call resubmits the same parameters
plus the token, and the outcome is `SUCCESS` exactly when that final call
reports success, else `ERROR` with the platform's reported reason. -/
theorem c7_two_phase (cfg : Config) (env : ApiEnv) (u : UserInfo)
    (logs : List ChargeRecord) (histCalls : List ApiCall) (rec : ChargeRecord)
    (d : DeviceInfo) (r1 : BeginResp) (bal : Int) (p : BeginParams)
    (baseCalls : List ApiCall)
    (h1 : env.userInfoResp = .ok ⟨true, some u⟩)
    (hbal : bal = u.readyaccountmoney.getD 0)
    (hb : ¬ (bal < 100))
    (hf : fetchHistory env = (.ok logs, histCalls))
    (hne : logs.isEmpty = false)
    (hm : find_power_off_record cfg env.now logs = some rec)
    (hd : env.deviceInfoResp rec.devaddress = .ok ⟨true, some d⟩)
    (hfree : is_port_free (d.portstatur.getD ("")) rec.devport = true)
    (hp : p = mkBeginParams rec.devaddress rec.devport bal d)
    (hbase : baseCalls = .getUserInfo :: (histCalls ++ [.getDeviceInfo rec.devaddress]))
    (hr1 : env.beginChargeResp p none = .ok r1) :
    p.money = bal ∧ p.beforemoney = bal
    ∧ (r1.success = false →
        try_charge cfg env
          = ((.ERROR, "充电启动失败: " ++ ("第一步失败: " ++ pyStr r1.msg)),
              baseCalls ++ [.beginCharge p none]))
    ∧ (r1.success = true → truthyStr r1.obj = none →
        try_charge cfg env
          = ((.ERROR, "充电启动失败: " ++ "未获取到 msgflag"),
              baseCalls ++ [.beginCharge p none]))
    ∧ (∀ flag r2, r1.success = true → truthyStr r1.obj = some flag →
        env.beginChargeResp p (some flag) = .ok r2 →
        try_charge cfg env
          = ((if r2.success then ChargeResult.SUCCESS else ChargeResult.ERROR,
              if r2.success then successMsg rec.devaddress rec.devport bal
              else ("充电启动失败: " ++ pyStr r2.msg)),
              baseCalls ++ [.beginCharge p none, .beginCharge p (some flag)])) := by
  subst hbal
  subst hp
  subst hbase
  refine ⟨rfl, rfl, ?_, ?_, ?_⟩
  · intro hs
    have hbc := begin_charge_first_fail env rec.devaddress rec.devport
      (u.readyaccountmoney.getD 0) d r1 hr1 hs
    have h := try_charge_reach_begin cfg env u logs histCalls rec d _ _
      h1 hb hf hne hm hd hfree hbc
    rw [h]
    simp [pyStr]
  · intro hs hfl
    have hbc := begin_charge_no_flag env rec.devaddress rec.devport
      (u.readyaccountmoney.getD 0) d r1 hr1 hs hfl
    have h := try_charge_reach_begin cfg env u logs histCalls rec d _ _
      h1 hb hf hne hm hd hfree hbc
    rw [h]
    simp [pyStr]
  · intro flag r2 hs hfl hr2
    have hbc := begin_charge_two_calls env rec.devaddress rec.devport
      (u.readyaccountmoney.getD 0) d r1 flag r2 hr1 hs hfl hr2
    have h := try_charge_reach_begin cfg env u logs histCalls rec d _ _
      h1 hb hf hne hm hd hfree hbc
    rw [h]
    cases hres : r2.success <;> simp [hres]

/-- The device info used by the full-pipeline environment. -/
def dev0 : DeviceInfo := ⟨some ("100"), some 40, some 9, some 110, some 55, some 55⟩

/-- A record ending exactly at the window's upper bound for `cfg0` on
June 10 of year 5. -/
def rec0 : ChargeRecord := ⟨"d1", "2", some 39, some (windowEndMs cfg0 ⟨5, 6, 10⟩)⟩

/-- Environment for the full successful recovery pipeline. -/
def env7 : ApiEnv where
  userInfoResp := .ok ⟨true, some ⟨some 200⟩⟩
  chargeLogResp := fun _ => .ok ⟨true, some [rec0]⟩
  deviceInfoResp := fun _ => .ok ⟨true, some dev0⟩
  beginChargeResp := fun _ flag =>
    match flag with
    | none => .ok ⟨true, some ("FLAG"), none⟩
    | some _ => .ok ⟨true, none, none⟩
  now := ⟨5, 6, 10⟩

theorem c7_two_phase_witness :
    try_charge cfg0 env7
      = ((ChargeResult.SUCCESS, successMsg rec0.devaddress rec0.devport 200),
          [.getUserInfo, .getChargeLog ⟨5, 6⟩, .getDeviceInfo rec0.devaddress,
           .beginCharge (mkBeginParams rec0.devaddress rec0.devport 200 dev0) none,
           .beginCharge (mkBeginParams rec0.devaddress rec0.devport 200 dev0)
             (some ("FLAG"))]) := by
  have h := c7_two_phase cfg0 env7 ⟨some 200⟩ [rec0] [.getChargeLog ⟨5, 6⟩] rec0 dev0
    ⟨true, some ("FLAG"), none⟩ 200
    (mkBeginParams rec0.devaddress rec0.devport 200 dev0)
    (.getUserInfo :: ([.getChargeLog ⟨5, 6⟩] ++ [.getDeviceInfo rec0.devaddress]))
    rfl rfl (by decide) rfl rfl (by decide) rfl (by decide) rfl rfl rfl
  have h5 := h.2.2.2.2 ("FLAG") ⟨true, none, none⟩ rfl rfl rfl
  simpa using h5

end AutoCharger
